import Mathlib

/-!
A shallow embedding of `ai2.py`, a small Flask service that fetches
news-sentiment data for a stock ticker, filters and ranks the items
(`StockNewsProcessor`), formats them into a prompt and calls a language
model (`StockNewsAnalyzer`), and exposes the result over `POST /process`.

Modelling conventions:
* Python floats are modelled as `ℚ`; scores in this program are small
  decimal fractions and every claim is about order comparisons, not about
  binary rounding.
* A JSON object field read with `dict.get(key)` (default `None`) is
  modelled as `Option _` when the program handles the `None` case
  (`source`, `relevance_score`, the top-level definition strings), and at
  its JSON type when a `None` would make the program raise before
  producing any output (`title`, `summary`, `url`, `time_published`,
  `ticker`, `ticker_sentiment_score`, `ticker_sentiment_label`), since no
  behaviour described by the specification is reachable in that case.
* `data.get('feed', [])` is modelled by making `feed` a plain list, the
  absent key being the empty list.
* The two external collaborators (the sentiment HTTP API and the
  language-model API) are parameters of type `String → Except String _`:
  `.error e` models the call raising an exception whose `str` is `e`.
* Python exception propagation is modelled with `Except String`.
-/

/-- One entry of a feed item's `ticker_sentiment` array.
Field order: ticker, relevance_score, ticker_sentiment_score,
ticker_sentiment_label. -/
structure TickerSentiment where
  ticker : String
  relevance_score : Option ℚ
  ticker_sentiment_score : ℚ
  ticker_sentiment_label : String
deriving DecidableEq

/-- One raw item of the sentiment API's `feed` array.
Field order: title, time_published, summary, source, url,
overall_sentiment_score, overall_sentiment_label, ticker_sentiment. -/
structure RawFeedItem where
  title : String
  time_published : String
  summary : String
  source : Option String
  url : String
  overall_sentiment_score : Option ℚ
  overall_sentiment_label : Option String
  ticker_sentiment : List TickerSentiment
deriving DecidableEq

/-- The JSON document returned by the sentiment API (`fetch_sentiment_data`).
Field order: sentiment_score_definition, relevance_score_definition, feed. -/
structure SentimentData where
  sentiment_score_definition : Option String
  relevance_score_definition : Option String
  feed : List RawFeedItem
deriving DecidableEq

/-- The dict built for each retained item in `process_news_items`
(lines 62-74). Field order: title, published_date, summary, source,
source_reliability, url, overall_sentiment, sentiment_label,
relevance_score, ticker_specific_sentiment, ticker_sentiment_label. -/
structure ProcessedNewsItem where
  title : String
  published_date : String
  summary : String
  source : Option String
  source_reliability : ℕ
  url : String
  overall_sentiment : Option ℚ
  sentiment_label : Option String
  relevance_score : Option ℚ
  ticker_specific_sentiment : ℚ
  ticker_sentiment_label : String
deriving DecidableEq

/-- `float(x)` applied to an optional score: Python raises `TypeError` on
`None`; in this model the value `0` stands in for that case, which is
unreachable from any call with a positive relevance threshold (the only
calls the program makes use the default threshold `0.5`). -/
def qval (o : Option ℚ) : ℚ := o.getD 0

/-- Python `str.upper()` on the ASCII strings this program handles. -/
def pyUpper (s : String) : String := String.mk (s.data.map Char.toUpper)

/-- Python `str.strip()`: remove leading and trailing whitespace. -/
def pyStrip (s : String) : String := s.trim

/-- Python `s[:n]` on a string: the first `n` characters. -/
def pyTake (s : String) (n : ℕ) : String := String.mk (s.data.take n)

/-- The `self.source_reliability` dict (lines 24-33). -/
def source_reliability : List (String × ℕ) :=
  [("Reuters", 5), ("Bloomberg", 5), ("CNBC", 4), ("Financial Times", 5),
   ("Wall Street Journal", 5), ("Benzinga", 3), ("Motley Fool", 3), ("Zacks", 3)]

/-- Python `dict.get(key, default)` on a string-keyed dict. -/
def dictGetNat (d : List (String × ℕ)) (k : String) (dflt : ℕ) : ℕ :=
  match d.find? (fun p => p.1 = k) with
  | some p => p.2
  | none => dflt

/-- `self.source_reliability.get(source, 2)` (line 61); `source` is the
result of `item.get('source')`, and a `None` key is absent from the dict,
so it also yields the default `2`. -/
def reliabilityOf (src : Option String) : ℕ :=
  match src with
  | some s => dictGetNat source_reliability s 2
  | none => 2

/-- Gregorian leap-year test, as used by `datetime`. -/
def isLeap (y : ℕ) : Bool := (y % 4 == 0 && y % 100 != 0) || (y % 400 == 0)

/-- Number of days in month `m` of year `y`. -/
def daysInMonth (y m : ℕ) : ℕ :=
  if m = 2 then (if isLeap y then 29 else 28)
  else if m = 4 ∨ m = 6 ∨ m = 9 ∨ m = 11 then 30
  else 31

/-- Numeric value of a string of decimal digits. -/
def natOfDigits (cs : List Char) : ℕ := cs.foldl (fun a c => a * 10 + (c.toNat - 48)) 0

/-- `datetime.strptime(time_str, '%Y%m%d%H%M%S')` (line 56) in its strict
reading: fourteen decimal digits `YYYYMMDDHHMMSS` whose fields are in the
ranges `datetime` accepts (year ≥ 1, month 1-12, day valid for the month,
hour ≤ 23, minute ≤ 59, second ≤ 59); any other string raises
`ValueError`, modelled as `none`.  (CPython's `strptime` additionally
accepts some under-width variants of the same fields; no claim about this
program turns on those inputs.) -/
def parseCompactTimestamp (s : String) : Option (ℕ × ℕ × ℕ × ℕ × ℕ × ℕ) :=
  let cs := s.data
  if cs.length = 14 ∧ cs.all Char.isDigit then
    let y := natOfDigits (cs.take 4)
    let mo := natOfDigits ((cs.drop 4).take 2)
    let d := natOfDigits ((cs.drop 6).take 2)
    let h := natOfDigits ((cs.drop 8).take 2)
    let mi := natOfDigits ((cs.drop 10).take 2)
    let se := natOfDigits ((cs.drop 12).take 2)
    if 1 ≤ y ∧ 1 ≤ mo ∧ mo ≤ 12 ∧ 1 ≤ d ∧ d ≤ daysInMonth y mo ∧
        h ≤ 23 ∧ mi ≤ 59 ∧ se ≤ 59 then
      some (y, mo, d, h, mi, se)
    else none
  else none

/-- Left-pad the decimal rendering of `n` with zeros to width `w`. -/
def padZeros (n : ℕ) (w : ℕ) : String :=
  let s := toString n
  String.mk (List.replicate (w - s.length) '0') ++ s

/-- `published_date.strftime('%Y-%m-%d %H:%M:%S')` (line 57). -/
def renderDate : ℕ × ℕ × ℕ × ℕ × ℕ × ℕ → String
  | (y, mo, d, h, mi, se) =>
    padZeros y 4 ++ "-" ++ padZeros mo 2 ++ "-" ++ padZeros d 2 ++ " " ++
      padZeros h 2 ++ ":" ++ padZeros mi 2 ++ ":" ++ padZeros se 2

/-- Lines 54-59: parse `time_published` and reformat it; on failure keep
the original string. -/
def formatTimestamp (s : String) : String :=
  match parseCompactTimestamp s with
  | some v => renderDate v
  | none => s

/-- The inner loop of lines 47-51: scan `ticker_sentiment` for the first
entry whose `ticker` equals `ticker.upper()` and `break`. -/
def findTickerData (ticker : String) : List TickerSentiment → Option TickerSentiment
  | [] => none
  | t :: rest => if t.ticker = pyUpper ticker then some t else findTickerData ticker rest

/-- The `processed_item` dict built on lines 62-74 for a retained item. -/
def buildProcessed (item : RawFeedItem) (td : TickerSentiment) : ProcessedNewsItem :=
  ⟨item.title, formatTimestamp item.time_published, item.summary, item.source,
   reliabilityOf item.source, item.url, item.overall_sentiment_score,
   item.overall_sentiment_label, td.relevance_score, td.ticker_sentiment_score,
   td.ticker_sentiment_label⟩

/-- One iteration of the loop body (lines 46-75): `none` means `continue`. -/
def processOne (ticker : String) (min_relevance : ℚ) (item : RawFeedItem) :
    Option ProcessedNewsItem :=
  match findTickerData ticker item.ticker_sentiment with
  | none => none
  | some td =>
    if qval td.relevance_score < min_relevance then none
    else some (buildProcessed item td)

/-- The `processed_items` list as built by the loop, in feed order. -/
def processedUnsorted (data : SentimentData) (ticker : String) (min_relevance : ℚ) :
    List ProcessedNewsItem :=
  data.feed.filterMap (processOne ticker min_relevance)

/-- The sort key of line 77: `(float(x['relevance_score']), x['source_reliability'])`. -/
def sortKey (x : ProcessedNewsItem) : ℚ × ℕ := (qval x.relevance_score, x.source_reliability)

/-- Lexicographic order on sort keys, as Python compares tuples. -/
def keyLe (a b : ℚ × ℕ) : Bool := decide (a.1 < b.1 ∨ (a.1 = b.1 ∧ a.2 ≤ b.2))

/-- The comparator realising `sorted(..., key=..., reverse=True)`:
`x` may precede `y` exactly when `x`'s key is lexicographically ≥ `y`'s. -/
def newsDesc (x y : ProcessedNewsItem) : Bool := keyLe (sortKey y) (sortKey x)

/-- `process_news_items` (lines 44-78).  CPython's `sorted` with
`reverse=True` is the stable descending sort by the key, which is exactly
`mergeSort` with the comparator `newsDesc`. -/
def process_news_items (data : SentimentData) (ticker : String) (min_relevance : ℚ) :
    List ProcessedNewsItem :=
  (processedUnsorted data ticker min_relevance).mergeSort newsDesc

/-- The dict returned by `get_sentiment_summary` (lines 82-86).
Field order: sentiment_definition, relevance_score_definition, news_items. -/
structure SentimentSummary where
  sentiment_definition : Option String
  relevance_score_definition : Option String
  news_items : List ProcessedNewsItem
deriving DecidableEq

/-- `get_sentiment_summary` (lines 80-86): fetch, then package the
processed items; a fetch failure propagates.  The Python parameter
`min_relevance` defaults to `0.5`; the model passes it explicitly. -/
def get_sentiment_summary (fetch : String → Except String SentimentData)
    (ticker : String) (min_relevance : ℚ) : Except String SentimentSummary :=
  (fetch ticker).map fun data =>
    ⟨data.sentiment_score_definition, data.relevance_score_definition,
     process_news_items data ticker min_relevance⟩

/-- Python `f"{v:.2f}"` / `f"{v:.3f}"` applied to a score: fixed-point
decimal rendering with `prec` digits.  (CPython rounds the binary double
to even in the marginal tie cases; this model rounds the exact rational.
No claim depends on the tie behaviour.) -/
def fmtFixed (prec : ℕ) (q : ℚ) : String :=
  let n : ℤ := round (q * (10 : ℚ) ^ prec)
  let sign := if n < 0 then "-" else ""
  let a := n.natAbs
  sign ++ toString (a / 10 ^ prec) ++ "." ++ padZeros (a % 10 ^ prec) prec

/-- Python `f"{item['source']}"` where `source` is `None` or a string. -/
def showSource : Option String → String
  | some s => s
  | none => "None"

/-- Lines 99-104 of `format_news_for_analysis`: the per-item text before
the summary line. -/
def itemHeader (idx : ℕ) (item : ProcessedNewsItem) : String :=
  toString idx ++ ". " ++ item.title ++ "\n" ++
    "Published: " ++ item.published_date ++ "\n" ++
    "Source: " ++ showSource item.source ++ " (Reliability: " ++
      toString item.source_reliability ++ "/5)\n" ++
    "Relevance Score: " ++ fmtFixed 2 (qval item.relevance_score) ++ "\n" ++
    "Ticker-Specific Sentiment: " ++ item.ticker_sentiment_label ++ " " ++
    "(Score: " ++ fmtFixed 3 item.ticker_specific_sentiment ++ ")\n"

/-- Lines 99-105: one item's block, ending with
`f"Summary: {item['summary'][:200]}...\n\n"`. -/
def formatNewsItem (idx : ℕ) (item : ProcessedNewsItem) : String :=
  itemHeader idx item ++ ("Summary: " ++ pyTake item.summary 200 ++ "...\n\n")

/-- The loop of `format_news_for_analysis`, with `enumerate(news_items, 1)`
carrying the 1-based index. -/
def formatItemsFrom : ℕ → List ProcessedNewsItem → String
  | _, [] => ""
  | idx, x :: xs => formatNewsItem idx x ++ formatItemsFrom (idx + 1) xs

/-- `format_news_for_analysis` (lines 96-106). -/
def format_news_for_analysis (news_items : List ProcessedNewsItem) : String :=
  "Recent News Items and Sentiment Analysis:\n\n" ++ formatItemsFrom 1 news_items

/-- The f-string `prompt` of lines 110-118. -/
def analysisPrompt (news_data : String) : String :=
  "Please analyze these financial news items and provide:\n" ++
    "1. Overall market sentiment analysis\n" ++
    "2. Key patterns or themes in the coverage\n" ++
    "3. Notable changes in sentiment over time\n" ++
    "4. Potential market implications\n" ++
    "5. Important factors for investors to watch\n\n" ++
    "News Data:\n" ++ news_data

/-- The single user-message content sent to the model (lines 122-124). -/
def fullMessage (news_data : String) : String :=
  "Provide a detailed analysis of this stock using the following data" ++
    analysisPrompt news_data ++
    "Do not just take sentiment ratings at face value; be sure to analyze the summaries of the articles provided." ++
    "Also, in the end, rate this stock\x27s short term trends from 0 to 100, and also rate the underlying fundamentals from 0 to 100."

/-- `analyze_news_with_ai` (lines 108-131): the language-model call is a
parameter; the `try`/`except` turns any failure `e` into the string
`f"Error generating AI analysis: {str(e)}"`. -/
def analyze_news_with_ai (llm : String → Except String String) (news_data : String) : String :=
  match llm (fullMessage news_data) with
  | Except.ok s => s
  | Except.error e => "Error generating AI analysis: " ++ e

/-- The dict returned by `get_complete_analysis` (lines 137-140).
Field order: raw_sentiment_data, ai_analysis. -/
structure CompleteAnalysis where
  raw_sentiment_data : SentimentSummary
  ai_analysis : String
deriving DecidableEq

/-- The default `min_relevance` threshold `0.5` of lines 44 and 80. -/
def defaultMinRelevance : ℚ := mkRat 1 2

/-- `get_complete_analysis` (lines 133-140): sentiment fetch failures
propagate; the language-model step never fails (it was absorbed inside
`analyze_news_with_ai`).  `get_sentiment_summary` is called with its
default threshold `0.5`. -/
def get_complete_analysis (fetch : String → Except String SentimentData)
    (llm : String → Except String String) (ticker : String) :
    Except String CompleteAnalysis :=
  (get_sentiment_summary fetch ticker defaultMinRelevance).map fun sentiment_data =>
    ⟨sentiment_data,
     analyze_news_with_ai llm (format_news_for_analysis sentiment_data.news_items)⟩

/-- One record of the `news_items` array of the `POST /process` response
(lines 181-188).  Field order: title, published_date, source,
relevance_score, sentiment, summary. -/
structure NewsItemView where
  title : String
  published_date : String
  source : String
  relevance_score : String
  sentiment : String
  summary : String
deriving DecidableEq

/-- The display record built for each processed item (lines 182-187). -/
def toView (item : ProcessedNewsItem) : NewsItemView :=
  ⟨item.title, item.published_date,
   showSource item.source ++ " (Reliability: " ++ toString item.source_reliability ++ "/5)",
   fmtFixed 2 (qval item.relevance_score),
   item.ticker_sentiment_label ++ " (Score: " ++ fmtFixed 3 item.ticker_specific_sentiment ++ ")",
   pyTake item.summary 200 ++ "..."⟩

/-- The `disclaimer` value of line 176. -/
def disclaimerText : String :=
  "IMPORTANT: This analysis is for informational purposes only and should not be considered as financial advice. The analysis is based on news sentiment and may not reflect all market factors. Past performance is not indicative of future results. Always conduct your own research and consult with a qualified financial advisor before making investment decisions."

/-- A JSON body of `POST /process` reaching `request.get_json()`:
`none` models JSON `null`; `some kvs` models an object whose
string-valued entries are `kvs`.  (Non-object, non-string-valued and
unparseable bodies are outside every claim.) -/
abbrev RequestBody := Option (List (String × String))

/-- `data['input']`-style lookup in the modelled JSON object. -/
def lookupKey (kvs : List (String × String)) (k : String) : Option String :=
  (kvs.find? (fun p => p.1 = k)).map (fun p => p.2)

/-- An HTTP response body from `/process`: either the error payload
`{"error": msg}` or the success payload
`{disclaimer, news_items, ai_analysis}` (lines 178-192). -/
inductive HttpBody where
  | err (msg : String) : HttpBody
  | success (disclaimer : String) (news_items : List NewsItemView)
      (ai_analysis : String) : HttpBody
deriving DecidableEq

/-- `process_input` (lines 166-197), returning (status code, body):
`not data or 'input' not in data` yields 400; the ticker is
`data['input'].strip().upper()`; any exception escaping
`get_complete_analysis` yields 500 with the exception's description;
otherwise 200 with the display payload. -/
def process_input (fetch : String → Except String SentimentData)
    (llm : String → Except String String) (body : RequestBody) : ℕ × HttpBody :=
  match body with
  | none => (400, HttpBody.err "No ticker provided")
  | some kvs =>
    if kvs = [] then (400, HttpBody.err "No ticker provided")
    else
      match lookupKey kvs "input" with
      | none => (400, HttpBody.err "No ticker provided")
      | some inp =>
        let ticker := pyUpper (pyStrip inp)
        match get_complete_analysis fetch llm ticker with
        | Except.error e => (500, HttpBody.err e)
        | Except.ok analysis =>
          (200, HttpBody.success disclaimerText
            (analysis.raw_sentiment_data.news_items.map toView)
            analysis.ai_analysis)

/-! ## Concrete fixtures

Small closed inputs used to exercise the definitions at concrete values. -/

/-- A sentiment record for `AAPL` with relevance `0.9`. -/
def exTd : TickerSentiment := ⟨"AAPL", some (mkRat 9 10), mkRat 1 10, "Bullish"⟩

/-- A feed item from a known source carrying `exTd`. -/
def exItem : RawFeedItem :=
  ⟨"Apple hits record", "20240115093000", "Summary text", some "Reuters", "http", some 0,
   some "Neutral", [exTd]⟩

/-- A one-item feed. -/
def exData : SentimentData := ⟨none, none, [exItem]⟩

/-- A second sentiment record with the same relevance `0.9`. -/
def exTdB : TickerSentiment := ⟨"AAPL", some (mkRat 9 10), mkRat 2 10, "Bullish"⟩

/-- A second feed item whose sort key ties with `exItem`'s
(relevance `0.9`, reliability `5`). -/
def exItemB : RawFeedItem :=
  ⟨"Second Apple story", "20240116100000", "Second summary", some "Bloomberg", "http2", some 0,
   some "Neutral", [exTdB]⟩

/-- A two-item feed whose items have equal sort keys. -/
def exData2 : SentimentData := ⟨none, none, [exItem, exItemB]⟩

/-- A sentiment record whose ticker symbol differs from `AAPL` only in
letter case. -/
def c1LowerTd : TickerSentiment := ⟨"Aapl", some (mkRat 9 10), mkRat 1 10, "Bullish"⟩

/-- A feed item whose only sentiment record is `c1LowerTd`. -/
def c1LowerItem : RawFeedItem :=
  ⟨"Apple news", "20240115093000", "S", some "Reuters", "u", some 0, some "Neutral",
   [c1LowerTd]⟩

/-- A one-item feed around `c1LowerItem`. -/
def c1Data : SentimentData := ⟨none, none, [c1LowerItem]⟩

/-- An API response with an empty feed. -/
def emptyFeedData : SentimentData := ⟨none, none, []⟩

/-- A sentiment fetch that always succeeds with an empty feed. -/
def fetchEmpty : String → Except String SentimentData := fun _ => Except.ok emptyFeedData

/-- A sentiment fetch that always raises. -/
def fetchFail : String → Except String SentimentData := fun _ => Except.error "API down"

/-- A language-model call that always succeeds. -/
def llmConst : String → Except String String := fun _ => Except.ok "AI text"

/-- A language-model call that always raises. -/
def llmFail : String → Except String String := fun _ => Except.error "boom"

/-- A processed item with a 201-character summary. -/
def longSummaryItem : ProcessedNewsItem :=
  ⟨"T", "D", String.mk (List.replicate 201 'a'), some "Reuters", 5, "u", some 0, some "n",
   some (mkRat 9 10), mkRat 1 10, "Bullish"⟩

/-- A processed item with a 2-character summary. -/
def shortSummaryItem : ProcessedNewsItem :=
  ⟨"T", "D", "hi", some "Reuters", 5, "u", some 0, some "n", some (mkRat 9 10), mkRat 1 10,
   "Bullish"⟩

/-! ## General lemmas about the pipeline -/

theorem findTickerData_some {ticker : String} {l : List TickerSentiment}
    {td : TickerSentiment} (h : findTickerData ticker l = some td) :
    td ∈ l ∧ td.ticker = pyUpper ticker := by
  induction l with
  | nil => simp [findTickerData] at h
  | cons t rest ih =>
    by_cases ht : t.ticker = pyUpper ticker
    · simp only [findTickerData, if_pos ht, Option.some.injEq] at h
      subst h
      exact ⟨List.mem_cons_self t rest, ht⟩
    · simp only [findTickerData, if_neg ht] at h
      obtain ⟨hmem, heq⟩ := ih h
      exact ⟨List.mem_cons_of_mem t hmem, heq⟩

theorem findTickerData_none {ticker : String} {l : List TickerSentiment}
    (h : ∀ td ∈ l, td.ticker ≠ pyUpper ticker) :
    findTickerData ticker l = none := by
  induction l with
  | nil => rfl
  | cons t rest ih =>
    have ht := h t (List.mem_cons_self t rest)
    simp only [findTickerData, if_neg ht]
    exact ih fun td hmem => h td (List.mem_cons_of_mem t hmem)

theorem processOne_eq_some {ticker : String} {mn : ℚ} {item : RawFeedItem}
    {x : ProcessedNewsItem} (h : processOne ticker mn item = some x) :
    ∃ td, findTickerData ticker item.ticker_sentiment = some td ∧
      ¬ qval td.relevance_score < mn ∧ x = buildProcessed item td := by
  unfold processOne at h
  split at h
  · simp at h
  next td hf =>
    split at h
    · simp at h
    next hrel => exact ⟨td, hf, hrel, ((Option.some.injEq _ _).mp h).symm⟩

theorem processOne_eq_none {ticker : String} {mn : ℚ} {item : RawFeedItem}
    (h : ∀ td ∈ item.ticker_sentiment, td.ticker ≠ pyUpper ticker) :
    processOne ticker mn item = none := by
  unfold processOne
  rw [findTickerData_none h]

theorem mem_processedUnsorted {data : SentimentData} {ticker : String} {mn : ℚ}
    {x : ProcessedNewsItem} :
    x ∈ processedUnsorted data ticker mn ↔
      ∃ item ∈ data.feed, processOne ticker mn item = some x := by
  unfold processedUnsorted
  exact List.mem_filterMap

theorem mem_process_news_items {data : SentimentData} {ticker : String} {mn : ℚ}
    {x : ProcessedNewsItem} :
    x ∈ process_news_items data ticker mn ↔ x ∈ processedUnsorted data ticker mn := by
  unfold process_news_items
  exact List.mem_mergeSort

theorem keyLe_refl (a : ℚ × ℕ) : keyLe a a = true := by
  simp [keyLe]

theorem keyLe_trans {a b c : ℚ × ℕ} (hab : keyLe a b = true) (hbc : keyLe b c = true) :
    keyLe a c = true := by
  simp only [keyLe, decide_eq_true_eq] at *
  rcases hab with h1 | ⟨h1, h1n⟩ <;> rcases hbc with h2 | ⟨h2, h2n⟩
  · exact Or.inl (lt_trans h1 h2)
  · exact Or.inl (h2 ▸ h1)
  · exact Or.inl (h1 ▸ h2)
  · exact Or.inr ⟨h1.trans h2, le_trans h1n h2n⟩

theorem keyLe_total (a b : ℚ × ℕ) : (keyLe a b || keyLe b a) = true := by
  simp only [keyLe, Bool.or_eq_true, decide_eq_true_eq]
  rcases lt_trichotomy a.1 b.1 with h | h | h
  · exact Or.inl (Or.inl h)
  · rcases Nat.le_total a.2 b.2 with hn | hn
    · exact Or.inl (Or.inr ⟨h, hn⟩)
    · exact Or.inr (Or.inr ⟨h.symm, hn⟩)
  · exact Or.inr (Or.inl h)

theorem newsDesc_trans (a b c : ProcessedNewsItem) (hab : newsDesc a b = true)
    (hbc : newsDesc b c = true) : newsDesc a c = true :=
  keyLe_trans hbc hab

theorem newsDesc_total (a b : ProcessedNewsItem) : (newsDesc a b || newsDesc b a) = true :=
  keyLe_total (sortKey b) (sortKey a)

theorem process_news_items_of_sorted {data : SentimentData} {ticker : String} {mn : ℚ}
    (h : List.Pairwise (fun a b => newsDesc a b = true) (processedUnsorted data ticker mn)) :
    process_news_items data ticker mn = processedUnsorted data ticker mn :=
  List.mergeSort_of_sorted h

theorem process_input_eval_ok {fetch : String → Except String SentimentData}
    {llm : String → Except String String} {kvs : List (String × String)} {inp : String}
    {d : SentimentData} (hne : kvs ≠ []) (hin : lookupKey kvs "input" = some inp)
    (hf : fetch (pyUpper (pyStrip inp)) = Except.ok d) :
    process_input fetch llm (some kvs) =
      (200, HttpBody.success disclaimerText
        ((process_news_items d (pyUpper (pyStrip inp)) defaultMinRelevance).map toView)
        (analyze_news_with_ai llm (format_news_for_analysis
          (process_news_items d (pyUpper (pyStrip inp)) defaultMinRelevance)))) := by
  unfold process_input
  dsimp only
  rw [if_neg hne, hin]
  unfold get_complete_analysis get_sentiment_summary
  dsimp only
  rw [hf]
  rfl

theorem process_input_eval_err {fetch : String → Except String SentimentData}
    {llm : String → Except String String} {kvs : List (String × String)} {inp : String}
    {e : String} (hne : kvs ≠ []) (hin : lookupKey kvs "input" = some inp)
    (hf : fetch (pyUpper (pyStrip inp)) = Except.error e) :
    process_input fetch llm (some kvs) = (500, HttpBody.err e) := by
  unfold process_input
  dsimp only
  rw [if_neg hne, hin]
  unfold get_complete_analysis get_sentiment_summary
  dsimp only
  rw [hf]
  rfl

/-! ## The claims -/

/-- C3: every `ProcessedNewsItem` returned by `process_news_items` has a
ticker-specific relevance score at least the configured minimum; with a
positive minimum (in particular the default `0.5`) the relevance field is
a present value meeting the threshold, and sub-threshold items are
dropped. -/
theorem c3_relevance_threshold (data : SentimentData) (ticker : String) (mn : ℚ) :
    (∀ x ∈ process_news_items data ticker mn, mn ≤ qval x.relevance_score) ∧
    (0 < mn → ∀ x ∈ process_news_items data ticker mn,
      ∃ r, x.relevance_score = some r ∧ mn ≤ r) := by
  have main : ∀ x ∈ process_news_items data ticker mn, mn ≤ qval x.relevance_score := by
    intro x hx
    obtain ⟨item, _, hone⟩ := mem_processedUnsorted.mp (mem_process_news_items.mp hx)
    obtain ⟨td, _, hrel, hxeq⟩ := processOne_eq_some hone
    subst hxeq
    simpa [buildProcessed] using not_lt.mp hrel
  refine ⟨main, fun hmn x hx => ?_⟩
  have h := main x hx
  cases hr : x.relevance_score with
  | some r => exact ⟨r, rfl, by simpa [qval, hr] using h⟩
  | none =>
    rw [hr] at h
    simp only [qval, Option.getD_none] at h
    exact absurd h (not_le.mpr hmn)

/-- Witness for C3 at a concrete input: with the default threshold `0.5`,
the item built from `exItem` is in the output and its relevance `0.9`
meets the threshold. -/
theorem c3_relevance_threshold_witness :
    (0 : ℚ) < defaultMinRelevance ∧
    buildProcessed exItem exTd ∈ process_news_items exData "AAPL" defaultMinRelevance ∧
    ∃ r, (buildProcessed exItem exTd).relevance_score = some r ∧ defaultMinRelevance ≤ r := by
  have hmem : buildProcessed exItem exTd ∈ process_news_items exData "AAPL" defaultMinRelevance := by
    rw [process_news_items_of_sorted (by decide)]
    decide
  exact ⟨by decide, hmem,
    (c3_relevance_threshold exData "AAPL" defaultMinRelevance).2 (by decide) _ hmem⟩

/-- C4: the output of `process_news_items` is sorted descending by the
lexicographic pair (relevance score, reliability score): every earlier
item's key is ≥ every later item's key; and the sort is stable: two items
with equal keys keep the relative order they had in the pre-sort (feed
order) list. -/
theorem c4_sorted_descending (data : SentimentData) (ticker : String) (mn : ℚ) :
    List.Pairwise (fun a b => newsDesc a b = true) (process_news_items data ticker mn) ∧
    (∀ a b : ProcessedNewsItem, newsDesc a b = true ↔
      (qval b.relevance_score < qval a.relevance_score ∨
        (qval b.relevance_score = qval a.relevance_score ∧
          b.source_reliability ≤ a.source_reliability))) ∧
    (∀ a b : ProcessedNewsItem, sortKey a = sortKey b →
      [a, b].Sublist (processedUnsorted data ticker mn) →
      [a, b].Sublist (process_news_items data ticker mn)) := by
  refine ⟨List.sorted_mergeSort newsDesc_trans newsDesc_total _, ?_, ?_⟩
  · intro a b
    simp [newsDesc, keyLe, sortKey]
  · intro a b hkey hsub
    have hpair : List.Pairwise (fun x y => newsDesc x y = true) [a, b] := by
      refine List.pairwise_cons.mpr ⟨?_, List.pairwise_singleton _ _⟩
      intro y hy
      rw [List.mem_singleton] at hy
      subst hy
      unfold newsDesc
      rw [hkey]
      exact keyLe_refl _
    unfold process_news_items
    exact List.sublist_mergeSort newsDesc_trans newsDesc_total hpair hsub

/-- Witness for C4 at a concrete input: `exData2` yields two items with
equal sort keys, and their feed order is preserved in the output. -/
theorem c4_sorted_descending_witness :
    sortKey (buildProcessed exItem exTd) = sortKey (buildProcessed exItemB exTdB) ∧
    [buildProcessed exItem exTd, buildProcessed exItemB exTdB].Sublist
      (process_news_items exData2 "AAPL" defaultMinRelevance) := by
  have hkey : sortKey (buildProcessed exItem exTd) = sortKey (buildProcessed exItemB exTdB) := by
    decide
  have hun : processedUnsorted exData2 "AAPL" defaultMinRelevance =
      [buildProcessed exItem exTd, buildProcessed exItemB exTdB] := by decide
  refine ⟨hkey, (c4_sorted_descending exData2 "AAPL" defaultMinRelevance).2.2 _ _ hkey ?_⟩
  rw [hun]

/-- C5: for every retained feed item the stored publish date is the
reformatting of `time_published`; a compact `YYYYMMDDHHMMSS` timestamp
such as `"20240115093000"` becomes a human-readable date, and a string
that fails to parse (such as `"not-a-date"`) is kept unchanged, no error
being raised. -/
theorem c5_timestamp_handling :
    (∀ (item : RawFeedItem) (td : TickerSentiment),
      (buildProcessed item td).published_date = formatTimestamp item.time_published) ∧
    formatTimestamp "20240115093000" = "2024-01-15 09:30:00" ∧
    (∀ s, parseCompactTimestamp s = none → formatTimestamp s = s) ∧
    parseCompactTimestamp "not-a-date" = none ∧
    formatTimestamp "not-a-date" = "not-a-date" := by
  refine ⟨fun item td => rfl, by decide, fun s hs => ?_, by decide, by decide⟩
  unfold formatTimestamp
  rw [hs]

/-- Witness for C5 at a concrete input: `"20231301120000"` (13th month)
fails to parse and passes through unchanged. -/
theorem c5_timestamp_handling_witness :
    parseCompactTimestamp "20231301120000" = none ∧
    formatTimestamp "20231301120000" = "20231301120000" :=
  ⟨by decide, c5_timestamp_handling.2.2.1 "20231301120000" (by decide)⟩

/-- C6: every retained item's reliability score is the Source Reliability
Table entry for its source; `"Reuters"` maps to `5`, a source not in the
table maps to `2`, and a missing source name also maps to `2`. -/
theorem c6_source_reliability (data : SentimentData) (ticker : String) (mn : ℚ) :
    (∀ x ∈ process_news_items data ticker mn,
      x.source_reliability = reliabilityOf x.source) ∧
    reliabilityOf (some "Reuters") = 5 ∧
    (∀ s, (∀ p ∈ source_reliability, p.1 ≠ s) → reliabilityOf (some s) = 2) ∧
    reliabilityOf none = 2 := by
  refine ⟨?_, by decide, ?_, rfl⟩
  · intro x hx
    obtain ⟨item, _, hone⟩ := mem_processedUnsorted.mp (mem_process_news_items.mp hx)
    obtain ⟨td, _, _, hxeq⟩ := processOne_eq_some hone
    subst hxeq
    rfl
  · intro s hs
    have hfind : source_reliability.find? (fun p => p.1 = s) = none :=
      List.find?_eq_none.mpr (fun p hp => by simpa using hs p hp)
    unfold reliabilityOf dictGetNat
    dsimp only
    rw [hfind]

/-- Witness for C6 at a concrete input: the item built from `exItem`
(source `"Reuters"`) carries reliability `5 = reliabilityOf exItem.source`,
and the unknown source `"Some Random Blog"` maps to `2`. -/
theorem c6_source_reliability_witness :
    buildProcessed exItem exTd ∈ process_news_items exData "AAPL" defaultMinRelevance ∧
    (buildProcessed exItem exTd).source_reliability =
      reliabilityOf (buildProcessed exItem exTd).source ∧
    (buildProcessed exItem exTd).source_reliability = 5 ∧
    reliabilityOf (some "Some Random Blog") = 2 := by
  have hmem : buildProcessed exItem exTd ∈ process_news_items exData "AAPL" defaultMinRelevance := by
    rw [process_news_items_of_sorted (by decide)]
    decide
  exact ⟨hmem, (c6_source_reliability exData "AAPL" defaultMinRelevance).1 _ hmem, by decide,
    (c6_source_reliability exData "AAPL" defaultMinRelevance).2.2.1 "Some Random Blog" (by decide)⟩

/-- C1 counterexample: the claim says the sub-record is selected when its
ticker symbol case-insensitively equals the target.  In `c1Data` the only
sub-record's ticker `"Aapl"` case-insensitively equals the target
`"AAPL"` and its relevance `0.9` is above the default threshold, yet the
item is dropped: line 49 compares the sub-record's ticker for exact
equality against the uppercased target. -/
theorem c1_counterexample :
    pyUpper c1LowerTd.ticker = pyUpper "AAPL" ∧
    defaultMinRelevance ≤ qval c1LowerTd.relevance_score ∧
    process_news_items c1Data "AAPL" defaultMinRelevance = [] := by
  refine ⟨by decide, by decide, ?_⟩
  rw [process_news_items_of_sorted (by decide)]
  decide

/-- C1 (amended): `process_news_items` selects the first ticker-sentiment
sub-record whose ticker symbol is exactly equal to the uppercased target
ticker (the target is case-normalised, the sub-record's symbol is not);
every output item arises from such a sub-record, and a feed item with no
exactly-matching sub-record contributes nothing to the output. -/
theorem c1_ticker_matching (ticker : String) (mn : ℚ) :
    (∀ data : SentimentData, ∀ x ∈ process_news_items data ticker mn,
      ∃ item ∈ data.feed, ∃ td, findTickerData ticker item.ticker_sentiment = some td ∧
        td ∈ item.ticker_sentiment ∧ td.ticker = pyUpper ticker ∧
        x = buildProcessed item td) ∧
    (∀ (sdef rdef : Option String) (pre post : List RawFeedItem) (item : RawFeedItem),
      (∀ td ∈ item.ticker_sentiment, td.ticker ≠ pyUpper ticker) →
      process_news_items ⟨sdef, rdef, pre ++ item :: post⟩ ticker mn =
        process_news_items ⟨sdef, rdef, pre ++ post⟩ ticker mn) := by
  constructor
  · intro data x hx
    obtain ⟨item, hitem, hone⟩ := mem_processedUnsorted.mp (mem_process_news_items.mp hx)
    obtain ⟨td, hf, _, hxeq⟩ := processOne_eq_some hone
    obtain ⟨hmem, hticker⟩ := findTickerData_some hf
    exact ⟨item, hitem, td, hf, hmem, hticker, hxeq⟩
  · intro sdef rdef pre post item hnone
    have hlists : (pre ++ item :: post).filterMap (processOne ticker mn) =
        (pre ++ post).filterMap (processOne ticker mn) := by
      simp only [List.filterMap_append, List.filterMap_cons, processOne_eq_none hnone]
    unfold process_news_items processedUnsorted
    dsimp only
    rw [hlists]

/-- Witness for C1 (amended) at a concrete input: the feed item whose only
sub-record has ticker `"Aapl"` (no exact match for `"AAPL"`) contributes
nothing. -/
theorem c1_ticker_matching_witness :
    process_news_items ⟨none, none, [c1LowerItem]⟩ "AAPL" defaultMinRelevance =
      process_news_items ⟨none, none, []⟩ "AAPL" defaultMinRelevance :=
  (c1_ticker_matching "AAPL" defaultMinRelevance).2 none none [] [] c1LowerItem (by decide)

/-- C2 counterexample: the claim says an empty `input` value yields a 400
response.  With the `input` key present but empty, and both external
calls succeeding, the endpoint instead strips and uppercases the empty
ticker and answers 200. -/
theorem c2_counterexample :
    lookupKey [("input", "")] "input" = some "" ∧
    process_input fetchEmpty llmConst (some [("input", "")]) =
      (200, HttpBody.success disclaimerText [] "AI text") ∧
    (process_input fetchEmpty llmConst (some [("input", "")])).1 ≠ 400 := by
  have h1 : process_news_items emptyFeedData (pyUpper (pyStrip "")) defaultMinRelevance = [] := by
    rw [process_news_items_of_sorted (by decide)]
    decide
  have h := @process_input_eval_ok fetchEmpty llmConst [("input", "")] "" emptyFeedData
    (by decide) (by decide) rfl
  rw [h1] at h
  refine ⟨rfl, ?_, ?_⟩
  · rw [h]
    rfl
  · rw [h]
    decide

/-- C2 (amended): `POST /process` answers 400 with the error payload
exactly when the parsed body is `null`, an empty object, or an object
lacking the `input` key; an empty-string `input` value is not rejected
(it proceeds to processing, as the counterexample shows). -/
theorem c2_missing_input_400 (fetch : String → Except String SentimentData)
    (llm : String → Except String String) (body : RequestBody)
    (h : body = none ∨ body = some [] ∨
      ∃ kvs, body = some kvs ∧ lookupKey kvs "input" = none) :
    process_input fetch llm body = (400, HttpBody.err "No ticker provided") := by
  rcases h with h | h | ⟨kvs, hb, hk⟩
  · subst h; rfl
  · subst h; rfl
  · subst hb
    unfold process_input
    dsimp only
    by_cases hne : kvs = []
    · rw [if_pos hne]
    · rw [if_neg hne, hk]

/-- Witness for C2 (amended) at a concrete input: a body with no `input`
key yields the 400 error payload. -/
theorem c2_missing_input_400_witness :
    process_input fetchEmpty llmConst (some [("other", "x")]) =
      (400, HttpBody.err "No ticker provided") :=
  c2_missing_input_400 fetchEmpty llmConst (some [("other", "x")])
    (Or.inr (Or.inr ⟨[("other", "x")], rfl, by decide⟩))

/-- C7: when the language-model call fails for any reason and the
sentiment fetch succeeds, the failure does not propagate:
`analyze_news_with_ai` returns a string describing the error,
`get_complete_analysis` completes normally with that string as
`ai_analysis`, and the endpoint answers 200 with that string in the
`ai_analysis` field. -/
theorem c7_llm_failure_recovered (fetch : String → Except String SentimentData)
    (llm : String → Except String String) (kvs : List (String × String))
    (inp err : String) (d : SentimentData) (hne : kvs ≠ [])
    (hin : lookupKey kvs "input" = some inp)
    (hf : fetch (pyUpper (pyStrip inp)) = Except.ok d)
    (hllm : ∀ s, llm s = Except.error err) :
    (∀ nd, analyze_news_with_ai llm nd = "Error generating AI analysis: " ++ err) ∧
    get_complete_analysis fetch llm (pyUpper (pyStrip inp)) =
      Except.ok ⟨⟨d.sentiment_score_definition, d.relevance_score_definition,
        process_news_items d (pyUpper (pyStrip inp)) defaultMinRelevance⟩,
        "Error generating AI analysis: " ++ err⟩ ∧
    process_input fetch llm (some kvs) =
      (200, HttpBody.success disclaimerText
        ((process_news_items d (pyUpper (pyStrip inp)) defaultMinRelevance).map toView)
        ("Error generating AI analysis: " ++ err)) := by
  have hana : ∀ nd, analyze_news_with_ai llm nd = "Error generating AI analysis: " ++ err := by
    intro nd
    unfold analyze_news_with_ai
    rw [hllm]
  refine ⟨hana, ?_, ?_⟩
  · unfold get_complete_analysis get_sentiment_summary
    rw [hf]
    simp only [Except.map]
    rw [hana]
  · rw [process_input_eval_ok hne hin hf, hana]

/-- Witness for C7 at a concrete input: with an empty feed and a
language-model call that raises `"boom"`, the endpoint answers 200 and
`ai_analysis` is the error-description string. -/
theorem c7_llm_failure_recovered_witness :
    analyze_news_with_ai llmFail "anything" = "Error generating AI analysis: " ++ "boom" ∧
    process_input fetchEmpty llmFail (some [("input", "AAPL")]) =
      (200, HttpBody.success disclaimerText
        ((process_news_items emptyFeedData (pyUpper (pyStrip "AAPL")) defaultMinRelevance).map toView)
        ("Error generating AI analysis: " ++ "boom")) := by
  have h := c7_llm_failure_recovered fetchEmpty llmFail [("input", "AAPL")] "AAPL" "boom"
    emptyFeedData (by decide) (by decide) rfl (fun s => rfl)
  exact ⟨h.1 "anything", h.2.2⟩

/-- C8: a failure of the sentiment fetch (any failure other than the
language-model call) propagates out of `get_sentiment_summary` and
`get_complete_analysis`, and the endpoint answers 500 with the failure's
description in the error payload. -/
theorem c8_fetch_failure_propagates (fetch : String → Except String SentimentData)
    (llm : String → Except String String) (kvs : List (String × String))
    (inp e : String) (hne : kvs ≠ [])
    (hin : lookupKey kvs "input" = some inp)
    (hf : fetch (pyUpper (pyStrip inp)) = Except.error e) :
    get_sentiment_summary fetch (pyUpper (pyStrip inp)) defaultMinRelevance =
      Except.error e ∧
    get_complete_analysis fetch llm (pyUpper (pyStrip inp)) = Except.error e ∧
    process_input fetch llm (some kvs) = (500, HttpBody.err e) := by
  refine ⟨?_, ?_, process_input_eval_err hne hin hf⟩
  · unfold get_sentiment_summary
    rw [hf]
    rfl
  · unfold get_complete_analysis get_sentiment_summary
    rw [hf]
    rfl

/-- Witness for C8 at a concrete input: a fetch that raises `"API down"`
produces a 500 response carrying that description. -/
theorem c8_fetch_failure_propagates_witness :
    process_input fetchFail llmConst (some [("input", "AAPL")]) =
      (500, HttpBody.err "API down") :=
  (c8_fetch_failure_propagates fetchFail llmConst [("input", "AAPL")] "AAPL" "API down"
    (by decide) (by decide) rfl).2.2

/-- C9: for a processed item whose summary exceeds 200 characters, the
display-formatted summary — in the response record (`toView`) and in the
prompt block (`formatNewsItem`) — is exactly the first 200 characters of
the summary followed by the ellipsis marker. -/
theorem c9_summary_truncation (item : ProcessedNewsItem) (idx : ℕ)
    (h : 200 < item.summary.length) :
    (toView item).summary = pyTake item.summary 200 ++ "..." ∧
    (pyTake item.summary 200).length = 200 ∧
    (pyTake item.summary 200).data = item.summary.data.take 200 ∧
    formatNewsItem idx item =
      itemHeader idx item ++ ("Summary: " ++ pyTake item.summary 200 ++ "...\n\n") := by
  refine ⟨rfl, ?_, rfl, rfl⟩
  show (item.summary.data.take 200).length = 200
  rw [List.length_take]
  exact min_eq_left (le_of_lt h)

/-- Witness for C9 at a concrete input: a 201-character summary is cut to
its first 200 characters plus the ellipsis. -/
theorem c9_summary_truncation_witness :
    200 < longSummaryItem.summary.length ∧
    (toView longSummaryItem).summary = pyTake longSummaryItem.summary 200 ++ "..." ∧
    (pyTake longSummaryItem.summary 200).length = 200 := by
  have h : 200 < longSummaryItem.summary.length := by
    show 200 < (List.replicate 201 'a').length
    rw [List.length_replicate]
    decide
  have hc := c9_summary_truncation longSummaryItem 1 h
  exact ⟨h, hc.1, hc.2.1⟩

/-- C10: the ellipsis marker is appended unconditionally: for every
processed item the display-formatted summary is the first 200 characters
followed by `"..."`, and in particular a summary of at most 200
characters appears whole with the ellipsis still appended. -/
theorem c10_ellipsis_unconditional (item : ProcessedNewsItem) (idx : ℕ) :
    (toView item).summary = pyTake item.summary 200 ++ "..." ∧
    formatNewsItem idx item =
      itemHeader idx item ++ ("Summary: " ++ pyTake item.summary 200 ++ "...\n\n") ∧
    (item.summary.length ≤ 200 → (toView item).summary = item.summary ++ "...") := by
  refine ⟨rfl, rfl, fun h => ?_⟩
  show String.mk (item.summary.data.take 200) ++ "..." = item.summary ++ "..."
  rw [List.take_of_length_le h]

/-- Witness for C10 at a concrete input: the 2-character summary `"hi"` is
displayed as `"hi..."` even though nothing was truncated. -/
theorem c10_ellipsis_unconditional_witness :
    shortSummaryItem.summary.length ≤ 200 ∧
    (toView shortSummaryItem).summary = shortSummaryItem.summary ++ "..." :=
  ⟨by decide, (c10_ellipsis_unconditional shortSummaryItem 1).2.2 (by decide)⟩
